import Mathlib

/-!
Verification of the binary stream layout decoder and frame extractor in
`src/read-data.py` (cadata-converter).  The Python functions are shallowly
embedded: a file is a list of byte values (`List Nat`), an open `os`-level
file handle is a `FileStream` (contents plus current position), fallible
operations return `Except PyError`, and Python `float` arithmetic is
modelled by exact rational arithmetic over `ℚ` (the values appearing in the
spec's scenarios are small enough that IEEE doubles compute the same
rationals, except where noted in the claim texts).
-/

namespace CAData

/-- A Python exception class, as far as the embedded code distinguishes them.
`osError` stands for `OSError` (and its alias `IOError`); `structError` is
`struct.error`, raised by `struct.unpack` when the buffer length does not
match the format size; `zeroDivisionError` is `ZeroDivisionError`. -/
inductive PyError where
  | osError
  | valueError
  | structError
  | zeroDivisionError
deriving DecidableEq

instance {ε α : Type} [DecidableEq ε] [DecidableEq α] : DecidableEq (Except ε α) := fun x y =>
  match x, y with
  | .error a, .error b =>
      if h : a = b then isTrue (by rw [h]) else isFalse (by simp [h])
  | .error _, .ok _ => isFalse (by simp)
  | .ok _, .error _ => isFalse (by simp)
  | .ok a, .ok b =>
      if h : a = b then isTrue (by rw [h]) else isFalse (by simp [h])

/-- An open file handle as produced by `os.open`: the file's bytes plus the
current seek position. -/
structure FileStream where
  data : List Nat
  pos : Nat
deriving DecidableEq

/-- `os.read(fh, n)`: returns up to `n` bytes from the current position
(fewer at end of file, possibly none), advancing the position by the number
of bytes actually read. -/
def osRead (s : FileStream) (n : Nat) : List Nat × FileStream :=
  let bs := (s.data.drop s.pos).take n
  (bs, ⟨s.data, s.pos + bs.length⟩)

/-- Little-endian base-256 value of a byte list. -/
def leDecode : List Nat → Nat
  | [] => 0
  | b :: rest => b + 256 * leDecode rest

/-- `struct.unpack('<I', bs)[0]`: little-endian unsigned 32-bit decode,
raising `struct.error` unless exactly 4 bytes are supplied. -/
def unpackU32 (bs : List Nat) : Except PyError Nat :=
  if bs.length = 4 then .ok (leDecode bs) else .error .structError

/-- `struct.unpack('H', bs)[0]`: native-order unsigned 16-bit decode
(little-endian on the platforms this script runs on), raising
`struct.error` unless exactly 2 bytes are supplied. -/
def unpackU16 (bs : List Nat) : Except PyError Nat :=
  if bs.length = 2 then .ok (leDecode bs) else .error .structError

/-- `os.lseek(fh, off, os.SEEK_SET)` (with `off ≥ 0`): sets the position,
which may lie beyond the end of file without error. -/
def lseekSet (s : FileStream) (off : Nat) : FileStream :=
  ⟨s.data, off⟩

/-- `os.lseek(fh, off, os.SEEK_CUR)` with a non-negative offset. -/
def lseekCur (s : FileStream) (off : Nat) : FileStream :=
  ⟨s.data, s.pos + off⟩

/-- `os.lseek(fh, off, os.SEEK_END)`: seeks relative to the end of file,
raising `OSError` (EINVAL) if the resulting position would be negative.
Returns the new position, as `os.lseek` does. -/
def lseekEnd (s : FileStream) (off : Int) : Except PyError (Nat × FileStream) :=
  let newPos : Int := (s.data.length : Int) + off
  if 0 ≤ newPos then .ok (newPos.toNat, ⟨s.data, newPos.toNat⟩) else .error .osError

/-- `HEADER_SIZE` from the module constants. -/
def HEADER_SIZE : Nat := 40

/-- `read_timestamp(file_handle, reset_location)`: reads three consecutive
little-endian u32 fields (12 bytes) from the current position; if
`reset_location` is true the position is restored afterwards. -/
def read_timestamp (s : FileStream) (reset_location : Bool) :
    Except PyError ((Nat × Nat × Nat) × FileStream) :=
  let current_location := s.pos
  match unpackU32 (osRead s 4).1 with
  | .error e => .error e
  | .ok t0 =>
    let s1 := (osRead s 4).2
    match unpackU32 (osRead s1 4).1 with
    | .error e => .error e
    | .ok t1 =>
      let s2 := (osRead s1 4).2
      match unpackU32 (osRead s2 4).1 with
      | .error e => .error e
      | .ok t2 =>
        let s3 := (osRead s2 4).2
        let s4 := if reset_location then lseekSet s3 current_location else s3
        .ok ((t0, t1, t2), s4)

/-- `read_frame(file_handle, width, height, reset_location)`: reads
`width*height` bytes from the current position as the pixel buffer.  Note
that `os.read` simply returns fewer bytes near end of file and the Python
code performs no length check, so a short buffer is returned without error. -/
def read_frame (s : FileStream) (width height : Nat) (reset_location : Bool) :
    List Nat × FileStream :=
  let current_location := s.pos
  let r := osRead s (width * height)
  let s1 := if reset_location then lseekSet r.2 current_location else r.2
  (r.1, s1)

/-- The `FileInfoTuple` named tuple of the script.  Python `int` fields that
can go negative (`dt`, `dt_total`, `frames`) are `Int`; the `float` fields
`fps` and `duration` are modelled as exact rationals. -/
structure FileInfoTuple where
  width : Nat
  height : Nat
  ts_first : Nat × Nat × Nat
  ts_second : Nat × Nat × Nat
  ts_last : Nat × Nat × Nat
  dt : Int
  dt_total : Int
  frames : Int
  fps : ℚ
  duration : ℚ
  pos_first : Nat
  pos_last : Nat
deriving DecidableEq

/-- `read_file_info(file_handle, width, height, reset_location)`: samples the
first, second and last timestamps and derives the layout and timing fields.
`frames = int((pos_last - pos_first) / (width*height+12)) + 1` divides as
floats and truncates toward zero, which `Int.tdiv` reproduces exactly for all
realistically sized files (both operands below 2^53); no divisibility check
is made.  The division producing `fps` raises `ZeroDivisionError` when
`dt_total == 0`, before the `reset_location` seek-back. -/
def read_file_info (s : FileStream) (width height : Nat) (reset_location : Bool) :
    Except PyError (FileInfoTuple × FileStream) :=
  let start_pos := s.pos
  let sA := lseekSet s HEADER_SIZE
  let pos_first := HEADER_SIZE
  match read_timestamp sA false with
  | .error e => .error e
  | .ok (ts_first, sB) =>
    let sC := lseekCur sB (width * height)
    match read_timestamp sC false with
    | .error e => .error e
    | .ok (ts_second, sD) =>
      match lseekEnd sD (-(((width * height : Nat) : Int) + 12)) with
      | .error e => .error e
      | .ok (pos_last, sE) =>
        match read_timestamp sE false with
        | .error e => .error e
        | .ok (ts_last, sF) =>
          let dt : Int := (ts_second.1 : Int) - (ts_first.1 : Int)
          let dt_total : Int := (ts_last.1 : Int) - (ts_first.1 : Int)
          let frames : Int :=
            Int.tdiv ((pos_last : Int) - (pos_first : Int)) ((width * height : Nat) + 12 : Int) + 1
          if dt_total = 0 then .error .zeroDivisionError
          else
            let fps : ℚ := ((frames - 1 : Int) : ℚ) * 1000000 / ((dt_total : Int) : ℚ)
            let duration : ℚ :=
              (((ts_last.1 : Int) - (ts_first.1 : Int) + dt : Int) : ℚ) * (1 / 1000000)
            let sG := if reset_location then lseekSet sF start_pos else sF
            .ok (⟨width, height, ts_first, ts_second, ts_last, dt, dt_total, frames,
                  fps, duration, pos_first, pos_last⟩, sG)

/-- `read_width_and_height(attr_file, width_pos, height_pos)`: seeks to
`width_pos` and decodes two bytes into the local variable `height`, then
seeks to `height_pos` and decodes two bytes into `width`, returning
`(width, height)` — the Python body really does bind them crosswise.  The
`try`/`except` clauses re-raise `OSError`/`IOError`/`ValueError` unchanged
and the `finally` only closes the handle, so they are not modelled
separately. -/
def read_width_and_height (attr_file : List Nat) (width_pos height_pos : Nat) :
    Except PyError (Nat × Nat) :=
  let s0 : FileStream := ⟨attr_file, 0⟩
  let s1 := lseekSet s0 width_pos
  match unpackU16 (osRead s1 2).1 with
  | .error e => .error e
  | .ok height =>
    let s2 := lseekSet (osRead s1 2).2 height_pos
    match unpackU16 (osRead s2 2).1 with
    | .error e => .error e
    | .ok width => .ok (width, height)

/-- The little-endian u32 value stored at byte offset `pos` of a file. -/
def dec4 (data : List Nat) (pos : Nat) : Nat :=
  leDecode ((data.drop pos).take 4)

/-- The timestamp triple stored at byte offset `pos` of a file. -/
def tsAt (data : List Nat) (pos : Nat) : Nat × Nat × Nat :=
  (dec4 data pos, dec4 data (pos + 4), dec4 data (pos + 8))

/-- The little-endian u16 value stored at byte offset `pos` of a file. -/
def dec2 (data : List Nat) (pos : Nat) : Nat :=
  leDecode ((data.drop pos).take 2)

/-- Which exception classes the `except` clauses of `read_data` catch:
`IOError` (an alias of `OSError`), `OSError` and `ValueError`.
`struct.error` and `ZeroDivisionError` are not among them. -/
def caught : PyError → Bool
  | .osError => true
  | .valueError => true
  | .structError => false
  | .zeroDivisionError => false

/-- The extraction loop of `read_data` (`for i in range(file_info.frames)`),
one saved-frame record per non-skipped index:  arguments are the loop index
`i`, the number of remaining iterations, and the stream position.  If the
output for `i` already exists the stride is skipped with `os.lseek`.
Otherwise a timestamp and a frame are read and handed to the sink
(`Image.save`); `sink_ok i` tells whether that external save succeeds, a
failure raising `OSError`.  The returned list holds the frames written
before the loop ended; the `Option PyError` is the exception that aborted
it, if any, before `read_data`'s `except` clauses filter it. -/
def runFrames (data : List Nat) (width height : Nat) (output_exists sink_ok : Nat → Bool) :
    Nat → Nat → Nat → List (Nat × (Nat × Nat × Nat) × List Nat) × Option PyError
  | _, 0, _ => ([], none)
  | i, r + 1, pos =>
    if output_exists i then
      runFrames data width height output_exists sink_ok (i + 1) r (pos + (width * height + 12))
    else
      match read_timestamp ⟨data, pos⟩ false with
      | .error e => ([], some e)
      | .ok (ts, s1) =>
        let fr := read_frame s1 width height false
        if sink_ok i then
          let rest := runFrames data width height output_exists sink_ok (i + 1) r fr.2.pos
          ((i, ts, fr.1) :: rest.1, rest.2)
        else ([], some .osError)

/-- `read_data(data_file, attr_file, out_dir, ...)`: reads the geometry from
the attribute file (outside the `try`, so its errors propagate), then inside
`try` computes the file info and runs the extraction loop.  `IOError`,
`OSError` and `ValueError` raised inside the `try` are caught and printed —
swallowed — while other exceptions propagate.  The result models the
observable outcome: the frames handed to the sink and written, and the
exception surfaced to the caller, if any.  The keyword parameters
`first_frame`, `last_frame`, `quality`, `framerate`, `skipframes` and
`force_overwrite` are accepted and, exactly as in the source, never used
(`framerate` is only reassigned locally). -/
def read_data (data_file attr_file : List Nat) (output_exists sink_ok : Nat → Bool)
    (first_frame last_frame : Int) (quality : Nat) (framerate : Option ℚ)
    (skipframes : Nat) (force_overwrite : Bool) :
    List (Nat × (Nat × Nat × Nat) × List Nat) × Option PyError :=
  match read_width_and_height attr_file 19 37 with
  | .error e => ([], some e)
  | .ok (width, height) =>
    match read_file_info ⟨data_file, 0⟩ width height false with
    | .error e => ([], if caught e then none else some e)
    | .ok (info, _) =>
      let r := runFrames data_file width height output_exists sink_ok
        0 info.frames.toNat info.pos_first
      (r.1, match r.2 with
            | none => none
            | some e => if caught e then none else some e)

/-- The `(index, timestamp, pixel buffer)` record stored for frame `i` of a
stream with geometry `w × h`: the timestamp at `pos_first + stride*i`
followed by `w*h` pixel bytes. -/
def recordAt (data : List Nat) (w h i : Nat) : Nat × (Nat × Nat × Nat) × List Nat :=
  (i, tsAt data (40 + (w * h + 12) * i),
    (data.drop (40 + (w * h + 12) * i + 12)).take (w * h))

/-- True when a `read_data` result surfaced no exception of a caught class:
either it returned normally or the surfaced exception is of an uncaught
class. -/
def uncaughtOnly : Option PyError → Bool
  | none => true
  | some e => !caught e

/-- A 39-byte attribute file whose 16-bit field at offset 19 is `1` and
whose field at offset 37 is `2`. -/
def attrC3 : List Nat :=
  List.replicate 19 0 ++ [1, 0] ++ List.replicate 16 0 ++ [2, 0]

/-- A 39-byte attribute file declaring the geometry `width = height = 1`
(both 16-bit fields are `1`). -/
def attr39 : List Nat :=
  List.replicate 19 0 ++ [1, 0] ++ List.replicate 16 0 ++ [1, 0]

/-- A data file for geometry 64×48: `30880 = 40 + 3084 * 10` bytes, ten full
records, all bytes zero except byte 40 (so the first sampled timestamp `t0`
is 1 and the last is 0, making `dt_total` nonzero). -/
def file30880 : List Nat :=
  List.replicate 40 0 ++ [1] ++ List.replicate 30839 0

/-- A data file for geometry 1×1 whose size `71 = 40 + 13*2 + 5` is *not* of
the form `40 + 13*n`: two full records plus five trailing bytes.  Byte 40 is
1 so the sampled `dt_total` is nonzero. -/
def file71 : List Nat :=
  List.replicate 40 0 ++ [1] ++ List.replicate 30 0

/-- A data file for geometry 1×1 with exactly `41` records
(`573 = 40 + 13*41` bytes) whose sampled timestamps are
`t0_first = 1000`, `t0_second = 1100`, `t0_last = 5000` (little-endian at
offsets 40, 53 and 560). -/
def file573 : List Nat :=
  List.replicate 40 0 ++ [232, 3, 0, 0] ++ List.replicate 9 0 ++ [76, 4, 0, 0] ++
    List.replicate 503 0 ++ [136, 19, 0, 0] ++ List.replicate 9 0

/-- A data file for geometry 1×1 with two full records (`66 = 40 + 13*2`
bytes); byte 40 is 1 so extraction succeeds past the layout phase. -/
def data66 : List Nat :=
  List.replicate 40 0 ++ [1] ++ List.replicate 25 0

/-- A data file for geometry 1×1 with ten full records
(`170 = 40 + 13*10` bytes); byte 40 is 1 so `dt_total` is nonzero. -/
def file170 : List Nat :=
  List.replicate 40 0 ++ [1] ++ List.replicate 129 0

/-- When at least 12 bytes are available, `read_timestamp` decodes the three
little-endian u32 fields at the current position; the position advances by 12
unless `reset_location` is set, in which case it is restored. -/
theorem read_timestamp_spec (s : FileStream) (r : Bool) (h : s.pos + 12 ≤ s.data.length) :
    read_timestamp s r =
      .ok (tsAt s.data s.pos, ⟨s.data, if r then s.pos else s.pos + 12⟩) := by
  obtain ⟨data, pos⟩ := s
  simp only at h
  have h4 : ((data.drop pos).take 4).length = 4 := by
    simp only [List.length_take, List.length_drop]; omega
  have h8 : ((data.drop (pos + 4)).take 4).length = 4 := by
    simp only [List.length_take, List.length_drop]; omega
  have h12 : ((data.drop (pos + 8)).take 4).length = 4 := by
    simp only [List.length_take, List.length_drop]; omega
  cases r <;>
    simp [read_timestamp, osRead, unpackU32, lseekSet, tsAt, dec4, h4, h8, h12]

/-- `read_frame` returns whatever bytes are available at the current position,
up to `width*height` of them, and never fails. -/
theorem read_frame_spec (s : FileStream) (w h : Nat) (r : Bool) :
    read_frame s w h r =
      ((s.data.drop s.pos).take (w * h),
       ⟨s.data, if r then s.pos else s.pos + ((s.data.drop s.pos).take (w * h)).length⟩) := by
  cases r <;> rfl

/-- `read_timestamp_spec` specialised to the consuming call used by
`read_file_info` and `read_data`, with the stream destructured. -/
theorem read_timestamp_false (data : List Nat) (pos : Nat) (h : pos + 12 ≤ data.length) :
    read_timestamp ⟨data, pos⟩ false = .ok (tsAt data pos, ⟨data, pos + 12⟩) := by
  rw [read_timestamp_spec ⟨data, pos⟩ false (by simpa using h)]
  norm_num

/-- A backwards `SEEK_END` seek that stays inside the file succeeds and lands
`k` bytes before the end. -/
theorem lseekEnd_spec (data : List Nat) (pos k : Nat) (h : k ≤ data.length) :
    lseekEnd ⟨data, pos⟩ (-(k : Int)) =
      .ok (data.length - k, ⟨data, data.length - k⟩) := by
  have h0 : (0 : Int) ≤ (data.length : Int) + -(k : Int) := by omega
  have h1 : ((data.length : Int) + -(k : Int)).toNat = data.length - k := by omega
  simp [lseekEnd, h0, h1]

/-- Characterisation of `read_file_info` on a well-formed data file: length
`40 + stride*n + rem` with `n ≥ 2` full records and `rem < stride` trailing
bytes, sampled first and last `t0` fields distinct (so the `fps` division is
defined).  The function succeeds and returns the decoded fields; in
particular `frames = n` regardless of the remainder `rem`. -/
theorem read_file_info_ok (data : List Nat) (p w h n rem : Nat)
    (hwh : 0 < w * h) (hn : 2 ≤ n) (hrem : rem < w * h + 12)
    (hlen : data.length = 40 + (w * h + 12) * n + rem)
    (hne : dec4 data (40 + (w * h + 12) * (n - 1) + rem) ≠ dec4 data 40) :
    read_file_info ⟨data, p⟩ w h false =
      .ok (⟨w, h, tsAt data 40, tsAt data (52 + w * h),
            tsAt data (40 + (w * h + 12) * (n - 1) + rem),
            (dec4 data (52 + w * h) : Int) - (dec4 data 40 : Int),
            (dec4 data (40 + (w * h + 12) * (n - 1) + rem) : Int) - (dec4 data 40 : Int),
            (n : Int),
            (((n : Int) - 1 : Int) : ℚ) * 1000000 /
              (((dec4 data (40 + (w * h + 12) * (n - 1) + rem) : Int) -
                 (dec4 data 40 : Int) : Int) : ℚ),
            (((dec4 data (40 + (w * h + 12) * (n - 1) + rem) : Int) - (dec4 data 40 : Int) +
               ((dec4 data (52 + w * h) : Int) - (dec4 data 40 : Int)) : Int) : ℚ) *
              (1 / 1000000),
            40, 40 + (w * h + 12) * (n - 1) + rem⟩,
          ⟨data, 40 + (w * h + 12) * (n - 1) + rem + 12⟩) := by
  obtain ⟨k, rfl⟩ : ∃ k, n = k + 2 := ⟨n - 2, by omega⟩
  have hm1 : (w * h + 12) * (k + 2) = (w * h + 12) * k + 2 * (w * h) + 24 := by ring
  have hm2 : (w * h + 12) * (k + 1) = (w * h + 12) * k + w * h + 12 := by ring
  have hk1 : k + 2 - 1 = k + 1 := by omega
  rw [hk1] at hne ⊢
  -- bounds for the three timestamp reads
  have hb1 : 40 + 12 ≤ data.length := by omega
  have hb2 : (40 + 12 + w * h) + 12 ≤ data.length := by omega
  have hend : w * h + 12 ≤ data.length := by omega
  have hpos : data.length - (w * h + 12) = 40 + (w * h + 12) * (k + 1) + rem := by omega
  have hb3 : (40 + (w * h + 12) * (k + 1) + rem) + 12 ≤ data.length := by omega
  -- the SEEK_END offset, as a single natural number cast
  have hoff : -(((w * h : Nat) : Int) + 12) = -(((w * h + 12 : Nat)) : Int) := by push_cast; ring
  -- the truncated division yields exactly k + 1
  have hdiv : Int.tdiv (((40 + (w * h + 12) * (k + 1) + rem : Nat) : Int) - ((40 : Nat) : Int))
      (((w * h : Nat) : Int) + 12) = ((k + 1 : Nat) : Int) := by
    have e0 : ((w * h : Nat) : Int) + 12 = ((w * h + 12 : Nat) : Int) := by push_cast; ring
    have e1 : ((40 + (w * h + 12) * (k + 1) + rem : Nat) : Int) - ((40 : Nat) : Int) =
        (((w * h + 12) * (k + 1) + rem : Nat) : Int) := by push_cast; ring
    have e2 : ((w * h + 12) * (k + 1) + rem) / (w * h + 12) = k + 1 := by
      rw [Nat.mul_add_div (by omega)]
      simp [Nat.div_eq_of_lt hrem]
    rw [e1, e0, ← Int.ofNat_tdiv, e2]
  rw [read_file_info]
  simp only [lseekSet, lseekCur, HEADER_SIZE]
  rw [read_timestamp_false data 40 hb1]
  dsimp only
  rw [read_timestamp_false data (40 + 12 + w * h) hb2]
  dsimp only
  rw [hoff, lseekEnd_spec data (40 + 12 + w * h + 12) (w * h + 12) hend, hpos]
  dsimp only
  rw [read_timestamp_false data (40 + (w * h + 12) * (k + 1) + rem) hb3]
  dsimp only [tsAt]
  have hifc : ¬ (((dec4 data (40 + (w * h + 12) * (k + 1) + rem) : Nat) : Int) -
      ((dec4 data 40 : Nat) : Int) = 0) := by
    intro hz
    exact hne (by omega)
  rw [if_neg hifc, hdiv]
  have h52 : 40 + 12 + w * h = 52 + w * h := by omega
  have hfr : ((k + 1 : Nat) : Int) + 1 = ((k + 2 : Nat) : Int) := by push_cast; ring
  rw [h52, hfr]
  norm_num

/-- On the same well-formed data file, if the first and last sampled `t0`
fields coincide then `dt_total` is zero and `read_file_info` raises
`ZeroDivisionError` at the `fps` division. -/
theorem read_file_info_zero (data : List Nat) (p w h n rem : Nat)
    (hwh : 0 < w * h) (hn : 2 ≤ n) (hrem : rem < w * h + 12)
    (hlen : data.length = 40 + (w * h + 12) * n + rem)
    (heq : dec4 data (40 + (w * h + 12) * (n - 1) + rem) = dec4 data 40) :
    read_file_info ⟨data, p⟩ w h false = .error .zeroDivisionError := by
  obtain ⟨k, rfl⟩ : ∃ k, n = k + 2 := ⟨n - 2, by omega⟩
  have hm1 : (w * h + 12) * (k + 2) = (w * h + 12) * k + 2 * (w * h) + 24 := by ring
  have hm2 : (w * h + 12) * (k + 1) = (w * h + 12) * k + w * h + 12 := by ring
  have hk1 : k + 2 - 1 = k + 1 := by omega
  rw [hk1] at heq
  have hb1 : 40 + 12 ≤ data.length := by omega
  have hb2 : (40 + 12 + w * h) + 12 ≤ data.length := by omega
  have hend : w * h + 12 ≤ data.length := by omega
  have hpos : data.length - (w * h + 12) = 40 + (w * h + 12) * (k + 1) + rem := by omega
  have hb3 : (40 + (w * h + 12) * (k + 1) + rem) + 12 ≤ data.length := by omega
  have hoff : -(((w * h : Nat) : Int) + 12) = -(((w * h + 12 : Nat)) : Int) := by push_cast; ring
  rw [read_file_info]
  simp only [lseekSet, lseekCur, HEADER_SIZE]
  rw [read_timestamp_false data 40 hb1]
  dsimp only
  rw [read_timestamp_false data (40 + 12 + w * h) hb2]
  dsimp only
  rw [hoff, lseekEnd_spec data (40 + 12 + w * h + 12) (w * h + 12) hend, hpos]
  dsimp only
  rw [read_timestamp_false data (40 + (w * h + 12) * (k + 1) + rem) hb3]
  dsimp only [tsAt]
  have hifc : ((dec4 data (40 + (w * h + 12) * (k + 1) + rem) : Nat) : Int) -
      ((dec4 data 40 : Nat) : Int) = 0 := by omega
  rw [if_pos hifc]

/-- When two bytes are available at each offset, `read_width_and_height`
succeeds, and the returned `width` is the field decoded at `height_pos`
while the returned `height` is the field decoded at `width_pos`. -/
theorem read_width_and_height_spec (attr : List Nat) (wp hp : Nat)
    (h1 : wp + 2 ≤ attr.length) (h2 : hp + 2 ≤ attr.length) :
    read_width_and_height attr wp hp = .ok (dec2 attr hp, dec2 attr wp) := by
  have hl1 : ((attr.drop wp).take 2).length = 2 := by
    simp only [List.length_take, List.length_drop]; omega
  have hl2 : ((attr.drop hp).take 2).length = 2 := by
    simp only [List.length_take, List.length_drop]; omega
  simp [read_width_and_height, lseekSet, osRead, unpackU16, hl1, hl2, dec2]

/-- `read_frame` with `reset_location=False`, destructured. -/
theorem read_frame_false (data : List Nat) (pos w h : Nat) :
    read_frame ⟨data, pos⟩ w h false =
      ((data.drop pos).take (w * h),
       ⟨data, pos + ((data.drop pos).take (w * h)).length⟩) := rfl

/-- Characterisation of the extraction loop on a well-formed stream when
every sink write succeeds: starting at index `i` (position
`pos_first + stride*i`) with `r` iterations remaining and `i + r ≤ n`
records in the file, it returns exactly the records of the non-skipped
indices, in order, and no exception. -/
theorem runFrames_spec (data : List Nat) (w h n rem : Nat) (ex : Nat → Bool)
    (hwh : 0 < w * h) (hrem : rem < w * h + 12)
    (hlen : data.length = 40 + (w * h + 12) * n + rem) :
    ∀ r i, i + r ≤ n →
      runFrames data w h ex (fun _ => true) i r (40 + (w * h + 12) * i) =
        (((List.range' i r).filter (fun j => !ex j)).map (recordAt data w h), none) := by
  intro r
  induction r with
  | zero => intro i _; simp [runFrames]
  | succ r ih =>
    intro i hi
    have hle : (w * h + 12) * (i + 1) ≤ (w * h + 12) * n :=
      Nat.mul_le_mul_left _ (by omega)
    have hm : (w * h + 12) * (i + 1) = (w * h + 12) * i + (w * h + 12) := by ring
    have hb12 : (40 + (w * h + 12) * i) + 12 ≤ data.length := by omega
    have hfl : ((data.drop (40 + (w * h + 12) * i + 12)).take (w * h)).length = w * h := by
      simp only [List.length_take, List.length_drop]; omega
    have hnext : 40 + (w * h + 12) * i + (w * h + 12) = 40 + (w * h + 12) * (i + 1) := by ring
    have hnext2 : 40 + (w * h + 12) * i + 12 + w * h = 40 + (w * h + 12) * (i + 1) := by ring
    rw [List.range'_succ]
    by_cases hex : ex i
    · rw [runFrames, if_pos hex, hnext, ih (i + 1) (by omega)]
      simp [hex]
    · rw [runFrames, if_neg hex,
        read_timestamp_false data (40 + (w * h + 12) * i) hb12]
      dsimp only
      rw [read_frame_false]
      dsimp only
      rw [hfl, hnext2, ih (i + 1) (by omega)]
      simp [hex, recordAt]

set_option maxRecDepth 1000000

/-- Dropping the replicated prefix of an appended list. -/
theorem drop_replicate_append (m a : Nat) (l : List Nat) :
    (List.replicate m a ++ l).drop m = l := by
  induction m with
  | zero => rfl
  | succ k ih => simp [List.replicate_succ, ih]

/-- The length of the 30880-byte sample file. -/
theorem file30880_length : file30880.length = 30880 := by
  rw [file30880, List.length_append, List.length_append, List.length_replicate,
    List.length_replicate]
  rfl

/-- The first sampled `t0` of the 30880-byte sample file is 1. -/
theorem file30880_dec4_40 : dec4 file30880 40 = 1 := by
  have hgroup : file30880 = List.replicate 40 0 ++ ([1] ++ List.replicate 30839 0) := by
    rw [file30880, List.append_assoc]
  rw [dec4, hgroup, drop_replicate_append 40 0 ([1] ++ List.replicate 30839 0)]
  decide

/-- The last sampled `t0` of the 30880-byte sample file is 0. -/
theorem file30880_dec4_27796 : dec4 file30880 27796 = 0 := by
  have h41 : (List.replicate 40 (0 : Nat) ++ [1]).length = 41 := by
    rw [List.length_append, List.length_replicate]
    rfl
  have hdrop : file30880.drop 27796 = (List.replicate 30839 (0 : Nat)).drop 27755 := by
    rw [file30880, show (27796 : Nat) = (List.replicate 40 (0 : Nat) ++ [1]).length + 27755
      from by rw [h41]]
    exact List.drop_append 27755
  have hrepl : (List.replicate 30839 (0 : Nat)).drop 27755 = List.replicate 3084 0 := by
    rw [List.drop_replicate]
  rw [dec4, hdrop, hrepl]
  decide

/-- Claim C1 (counterexample): the file `List.replicate 53 0` has the valid
geometry `width = height = 1` and size exactly `40 + stride * 1` with
`n = 1 ≥ 1`, yet `read_file_info` does not yield `frame_count = 1`: it
raises `struct.error`, because sampling the second timestamp reads past the
end of the single-record file. -/
theorem C1_counterexample :
    (List.replicate 53 (0 : Nat)).length = 40 + (1 * 1 + 12) * 1 ∧
    read_file_info ⟨List.replicate 53 0, 0⟩ 1 1 false = .error .structError := by
  decide

/-- Claim C1 (amended): for a valid geometry and `file_size = 40 + stride*n`
with `n ≥ 2` (so that the second sampled timestamp lies inside the file) and
distinct first/last sampled `t0` fields (so the `fps` division is defined),
`read_file_info` succeeds and returns `frames = n`, `pos_first = 40` and
`pos_last = file_size - stride`.  For `n = 1` it instead raises
`struct.error` (see the counterexample). -/
theorem C1_amended (data : List Nat) (w h n : Nat)
    (hw : 0 < w) (hh : 0 < h) (hn : 2 ≤ n)
    (hlen : data.length = 40 + (w * h + 12) * n)
    (hne : dec4 data (data.length - (w * h + 12)) ≠ dec4 data 40) :
    ∃ info s, read_file_info ⟨data, 0⟩ w h false = .ok (info, s) ∧
      info.frames = (n : Int) ∧ info.pos_first = 40 ∧
      info.pos_last = data.length - (w * h + 12) := by
  have hwh : 0 < w * h := Nat.mul_pos hw hh
  obtain ⟨k, rfl⟩ : ∃ k, n = k + 2 := ⟨n - 2, by omega⟩
  have h1 : (w * h + 12) * (k + 2) = (w * h + 12) * (k + 1) + (w * h + 12) := by ring
  have hx : data.length - (w * h + 12) = 40 + (w * h + 12) * (k + 2 - 1) + 0 := by
    have h2 : (w * h + 12) * (k + 2 - 1) = (w * h + 12) * (k + 1) := by norm_num
    omega
  rw [hx] at hne
  have key := read_file_info_ok data 0 w h (k + 2) 0 hwh hn (by omega) (by omega) hne
  exact ⟨_, _, key, rfl, rfl, by rw [hx]⟩

/-- Claim C1 (witness): the concrete scenario `width = 64`, `height = 48`,
`file_size = 30880 = 40 + 3084 * 10` yields `frame_count = 10`,
`pos_first = 40`, `pos_last = 27796`. -/
theorem C1_witness :
    file30880.length = 40 + (64 * 48 + 12) * 10 ∧
    ∃ info s, read_file_info ⟨file30880, 0⟩ 64 48 false = .ok (info, s) ∧
      info.frames = 10 ∧ info.pos_first = 40 ∧ info.pos_last = 27796 := by
  have hlen : file30880.length = 40 + (64 * 48 + 12) * 10 := by
    rw [file30880_length]
  have hne : dec4 file30880 (file30880.length - (64 * 48 + 12)) ≠ dec4 file30880 40 := by
    rw [file30880_length, show (30880 - (64 * 48 + 12) : Nat) = 27796 from by norm_num,
      file30880_dec4_27796, file30880_dec4_40]
    decide
  obtain ⟨info, s, heq, hf, hpf, hpl⟩ :=
    C1_amended file30880 64 48 10 (by decide) (by decide) (by decide) hlen hne
  refine ⟨hlen, info, s, heq, by exact_mod_cast hf, hpf, ?_⟩
  rw [hpl, file30880_length]

/-- Claim C2 (counterexample): `file71` has size `71`, which is not of the
form `40 + 13*n` (`31 % 13 ≠ 0`), yet `read_file_info` raises no error at
all — the embedding has no `CorruptLayoutError` or `InsufficientDataError`
because the source defines none — and silently returns the truncated frame
count `2`. -/
theorem C2_counterexample :
    file71.length = 71 ∧ (31 : Nat) % 13 ≠ 0 ∧
    (read_file_info ⟨file71, 0⟩ 1 1 false).toOption.map
      (fun p => (p.1.frames, p.1.pos_last)) = some (2, 58) := by
  decide

/-- Claim C2 (amended): `read_file_info` checks neither divisibility nor
sufficiency: for any trailing remainder `0 < rem < stride` beyond `n ≥ 2`
full records (with the `fps` division defined) it succeeds and silently
reports `frames = n`, truncating the quotient toward zero. -/
theorem C2_amended (data : List Nat) (w h n rem : Nat)
    (hw : 0 < w) (hh : 0 < h) (hn : 2 ≤ n)
    (hrem0 : 0 < rem) (hrem : rem < w * h + 12)
    (hlen : data.length = 40 + (w * h + 12) * n + rem)
    (hne : dec4 data (40 + (w * h + 12) * (n - 1) + rem) ≠ dec4 data 40) :
    ∃ info s, read_file_info ⟨data, 0⟩ w h false = .ok (info, s) ∧
      info.frames = (n : Int) :=
  ⟨_, _, read_file_info_ok data 0 w h n rem (Nat.mul_pos hw hh) hn hrem hlen hne, rfl⟩

/-- Claim C2 (witness): the 71-byte file with geometry 1×1 has two full
records plus 5 trailing bytes and is reported as `frames = 2` without any
error. -/
theorem C2_witness :
    ∃ info s, read_file_info ⟨file71, 0⟩ 1 1 false = .ok (info, s) ∧
      info.frames = 2 := by
  obtain ⟨info, s, heq, hf⟩ :=
    C2_amended file71 1 1 2 5 (by decide) (by decide) (by decide) (by decide)
      (by decide) (by decide) (by decide)
  exact ⟨info, s, heq, by exact_mod_cast hf⟩

/-- Claim C3 (counterexample): on an attribute file whose 16-bit field at
offset 19 is `1` and whose field at offset 37 is `2`, the call with default
offsets returns `(width, height) = (2, 1)`: the returned `width` is the
value decoded at offset 37, not at offset 19 as the claim states. -/
theorem C3_counterexample :
    read_width_and_height attrC3 19 37 = .ok (2, 1) ∧
    dec2 attrC3 19 = 1 ∧ dec2 attrC3 37 = 2 := by
  decide

/-- Claim C3 (amended): `read_width_and_height` decodes a little-endian
unsigned 16-bit integer at each of the two offsets, but binds them
crosswise: the returned `width` is the value decoded at `height_pos`
(default 37) and the returned `height` is the value decoded at `width_pos`
(default 19). -/
theorem C3_amended (attr : List Nat) (wp hp : Nat)
    (h1 : wp + 2 ≤ attr.length) (h2 : hp + 2 ≤ attr.length) :
    read_width_and_height attr wp hp = .ok (dec2 attr hp, dec2 attr wp) :=
  read_width_and_height_spec attr wp hp h1 h2

/-- Claim C3 (witness): the amended reading on the 39-byte sample attribute
file: width is the field at offset 37 (`2`), height the field at offset 19
(`1`). -/
theorem C3_witness :
    read_width_and_height attrC3 19 37 = .ok (dec2 attrC3 37, dec2 attrC3 19) ∧
    dec2 attrC3 37 = 2 ∧ dec2 attrC3 19 = 1 :=
  ⟨C3_amended attrC3 19 37 (by decide) (by decide), by decide, by decide⟩

/-- Claim C4 (counterexample): on the all-zero 66-byte file (two records,
all sampled timestamps equal, so `dt_total = 0`), `read_file_info` raises
`ZeroDivisionError` from the `fps` division — the code does divide and does
raise a division error, instead of leaving `fps` undefined for the caller. -/
theorem C4_counterexample :
    read_file_info ⟨List.replicate 66 (0 : Nat), 0⟩ 1 1 false
      = .error .zeroDivisionError := by
  decide

/-- Claim C4 (amended): whenever the sampled `dt_total` is zero the metrics
computation raises `ZeroDivisionError` at the `fps` division; there is no
explicit "undefined" value and no caller-supplied fallback.  (With
`frame_count = 1` the computation already fails earlier: sampling the second
timestamp reads past the end of the file, raising `struct.error`.) -/
theorem C4_amended (data : List Nat) (w h n rem : Nat)
    (hw : 0 < w) (hh : 0 < h) (hn : 2 ≤ n) (hrem : rem < w * h + 12)
    (hlen : data.length = 40 + (w * h + 12) * n + rem)
    (heq : dec4 data (40 + (w * h + 12) * (n - 1) + rem) = dec4 data 40) :
    read_file_info ⟨data, 0⟩ w h false = .error .zeroDivisionError :=
  read_file_info_zero data 0 w h n rem (Nat.mul_pos hw hh) hn hrem hlen heq

/-- Claim C4 (witness): the amended behaviour at the all-zero 71-byte file
(two full records plus five trailing bytes, `dt_total = 0`). -/
theorem C4_witness :
    read_file_info ⟨List.replicate 71 (0 : Nat), 0⟩ 1 1 false
      = .error .zeroDivisionError :=
  C4_amended (List.replicate 71 0) 1 1 2 5 (by decide) (by decide) (by decide)
    (by decide) (by decide) (by decide)

/-- Filtering the saved records by index commutes with producing them:
used to compare a skipping run with a run that skips nothing. -/
theorem map_recordAt_filter (data : List Nat) (w h : Nat) (ex : Nat → Bool) :
    ∀ l : List Nat,
      (l.filter (fun j => !ex j)).map (recordAt data w h) =
        ((l.map (recordAt data w h)).filter (fun t => !ex t.1)) := by
  intro l
  induction l with
  | nil => rfl
  | cons a l ih =>
    by_cases hex : ex a
    · simp [recordAt, hex, ih]
    · simp [recordAt, hex, ih]

/-- Claim C7: with at least 12 bytes available at the current position,
`read_timestamp` returns the three little-endian u32 fields stored there,
and the position advances by exactly 12 bytes when the record is consumed
(`reset_location = false`) and is unchanged when it is not
(`reset_location = true`). -/
theorem C7_confirmed (s : FileStream) (reset_location : Bool)
    (h : s.pos + 12 ≤ s.data.length) :
    read_timestamp s reset_location =
      .ok (tsAt s.data s.pos, ⟨s.data, if reset_location then s.pos else s.pos + 12⟩) :=
  read_timestamp_spec s reset_location h

/-- Claim C7 (witness): on a 12-byte stream holding the little-endian
fields 1, 2, 3, the consuming read ends at position 12 and the
non-consuming read back at position 0. -/
theorem C7_witness :
    read_timestamp ⟨[1, 0, 0, 0, 2, 0, 0, 0, 3, 0, 0, 0], 0⟩ false
        = .ok ((1, 2, 3), ⟨[1, 0, 0, 0, 2, 0, 0, 0, 3, 0, 0, 0], 12⟩) ∧
    read_timestamp ⟨[1, 0, 0, 0, 2, 0, 0, 0, 3, 0, 0, 0], 0⟩ true
        = .ok ((1, 2, 3), ⟨[1, 0, 0, 0, 2, 0, 0, 0, 3, 0, 0, 0], 0⟩) :=
  ⟨(C7_confirmed ⟨[1, 0, 0, 0, 2, 0, 0, 0, 3, 0, 0, 0], 0⟩ false (by decide)).trans
      (by decide),
   (C7_confirmed ⟨[1, 0, 0, 0, 2, 0, 0, 0, 3, 0, 0, 0], 0⟩ true (by decide)).trans
      (by decide)⟩

/-- Claim C8 (counterexample): asked for a `4 × 5` pixel buffer on a
10-byte file, `read_frame` does not fail — no `TruncatedRecordError` exists
anywhere in the source — and hands back the 10-byte short buffer. -/
theorem C8_counterexample :
    read_frame ⟨List.replicate 10 (0 : Nat), 0⟩ 4 5 false
      = (List.replicate 10 0, ⟨List.replicate 10 0, 10⟩) ∧
    (List.replicate 10 (0 : Nat)).length < 4 * 5 := by
  decide

/-- Claim C8 (amended): when fewer than `width*height` bytes remain,
`read_frame` performs no length check and raises nothing: it returns
exactly the remaining bytes — a buffer strictly shorter than
`width*height` — and leaves the position at end of file. -/
theorem C8_amended (data : List Nat) (pos w h : Nat)
    (hpos : pos ≤ data.length) (hshort : data.length < pos + w * h) :
    (read_frame ⟨data, pos⟩ w h false).1.length = data.length - pos ∧
    (read_frame ⟨data, pos⟩ w h false).1.length < w * h ∧
    (read_frame ⟨data, pos⟩ w h false).2 = ⟨data, data.length⟩ := by
  have hl : ((data.drop pos).take (w * h)).length = data.length - pos := by
    simp only [List.length_take, List.length_drop]; omega
  rw [read_frame_false]
  refine ⟨hl, ?_, ?_⟩
  · rw [hl]; omega
  · rw [hl, show pos + (data.length - pos) = data.length from by omega]

/-- Claim C8 (witness): the amended behaviour on the 10-byte file with a
`4 × 5` request. -/
theorem C8_witness :
    (read_frame ⟨List.replicate 10 (0 : Nat), 0⟩ 4 5 false).1.length
        = (List.replicate 10 (0 : Nat)).length - 0 ∧
    (read_frame ⟨List.replicate 10 (0 : Nat), 0⟩ 4 5 false).1.length < 4 * 5 ∧
    (read_frame ⟨List.replicate 10 (0 : Nat), 0⟩ 4 5 false).2
        = ⟨List.replicate 10 0, (List.replicate 10 (0 : Nat)).length⟩ :=
  C8_amended (List.replicate 10 0) 0 4 5 (by decide) (by decide)

/-- Claim C5 (counterexample): on `data66` (two records) with no outputs
present and a sink that succeeds for frame 0 but fails (raising `OSError`
from `Image.save`) for frame 1, `read_data` swallows the sink failure: it
returns normally (surfaced error `none`) with only frame 0 written.  The
failure is *not* surfaced to the caller, contradicting the claim. -/
theorem C5_counterexample :
    read_data data66 attr39 (fun _ => false) (fun i => i == 0) 0 (-1) 100 none 0 false
      = ([(0, (1, 0, 0), [0])], none) := by
  decide

/-- Claim C5 (amended): `read_data`'s `except` clauses catch and print
`IOError`/`OSError`/`ValueError` raised inside the `try` block — including
sink failures — so no exception of a caught class is ever surfaced to the
caller; only uncaught classes (`struct.error`, `ZeroDivisionError`)
propagate.  (Errors from reading the attribute file occur before the `try`
and do propagate.)  Previously written outputs are never rolled back, as the
result accumulates all frames saved before the abort. -/
theorem C5_amended (data attr : List Nat) (w h : Nat)
    (output_exists sink_ok : Nat → Bool) (ff lf : Int) (q : Nat)
    (fr : Option ℚ) (sf : Nat) (fo : Bool)
    (hok : read_width_and_height attr 19 37 = .ok (w, h)) :
    uncaughtOnly (read_data data attr output_exists sink_ok ff lf q fr sf fo).2 = true := by
  unfold read_data
  rw [hok]
  dsimp only
  cases hfi : read_file_info ⟨data, 0⟩ w h false with
  | error e => cases e <;> simp [caught, uncaughtOnly]
  | ok p =>
    obtain ⟨info, s2⟩ := p
    dsimp only
    cases hr : (runFrames data w h output_exists sink_ok 0 info.frames.toNat info.pos_first).2 with
    | none => simp [uncaughtOnly]
    | some e => cases e <;> simp [uncaughtOnly, caught]

/-- Claim C5 (witness): the amended policy on the concrete sink-failure
scenario of the counterexample: nothing of a caught class is surfaced. -/
theorem C5_witness :
    uncaughtOnly
      (read_data data66 attr39 (fun _ => false) (fun i => i == 0) 0 (-1) 100 none 0 false).2
      = true :=
  C5_amended data66 attr39 1 1 (fun _ => false) (fun i => i == 0) 0 (-1) 100 none 0 false
    (by decide)

/-- Claim C6: on a well-formed stream with `n ≥ 2` records (so
`frame_count > 1`), ordered sampled timestamps and nonzero `dt_total`, the
metrics fields of `read_file_info` satisfy `dt = t0_second - t0_first`,
`dt_total = t0_last - t0_first`, `fps = (frame_count - 1) * 1000000 /
dt_total` and `duration = (dt_total + dt) * 10⁻⁶` (exact rational
arithmetic; the Python floats compute the same values whenever they are
representable, e.g. `fps = 10000.0` in the concrete scenario, while
`duration` is the rational `0.0041` up to the usual binary rounding of
`1e-6`). -/
theorem C6_confirmed (data : List Nat) (w h n rem : Nat)
    (hw : 0 < w) (hh : 0 < h) (hn : 2 ≤ n) (hrem : rem < w * h + 12)
    (hlen : data.length = 40 + (w * h + 12) * n + rem)
    (hord1 : dec4 data 40 ≤ dec4 data (52 + w * h))
    (hord2 : dec4 data (52 + w * h) ≤ dec4 data (40 + (w * h + 12) * (n - 1) + rem))
    (hne : dec4 data (40 + (w * h + 12) * (n - 1) + rem) ≠ dec4 data 40) :
    ∃ info s, read_file_info ⟨data, 0⟩ w h false = .ok (info, s) ∧
      info.frames = (n : Int) ∧
      info.dt = (dec4 data (52 + w * h) : Int) - (dec4 data 40 : Int) ∧
      info.dt_total
        = (dec4 data (40 + (w * h + 12) * (n - 1) + rem) : Int) - (dec4 data 40 : Int) ∧
      info.fps = ((info.frames : ℚ) - 1) * 1000000 / (info.dt_total : ℚ) ∧
      info.duration = ((info.dt_total : ℚ) + (info.dt : ℚ)) * (1 / 1000000) := by
  have key := read_file_info_ok data 0 w h n rem (Nat.mul_pos hw hh) hn hrem hlen hne
  refine ⟨_, _, key, rfl, rfl, rfl, ?_, ?_⟩
  · dsimp only
    push_cast
    ring
  · dsimp only
    push_cast
    ring

/-- Claim C6 (witness): the concrete scenario `t0_first = 1000`,
`t0_second = 1100`, `t0_last = 5000`, `frame_count = 41` yields `dt = 100`,
`dt_total = 4000`, `fps = 10000` and `duration = 41/10000 = 0.0041`. -/
theorem C6_witness :
    ∃ info s, read_file_info ⟨file573, 0⟩ 1 1 false = .ok (info, s) ∧
      info.dt = 100 ∧ info.dt_total = 4000 ∧ info.frames = 41 ∧
      info.fps = 10000 ∧ info.duration = 41 / 10000 := by
  obtain ⟨info, s, heq, hfr, hdt, hdtt, hfps, hdur⟩ :=
    C6_confirmed file573 1 1 41 0 (by decide) (by decide) (by decide) (by decide)
      (by decide) (by decide) (by decide) (by decide)
  have e1 : dec4 file573 40 = 1000 := by decide
  have e2 : dec4 file573 (52 + 1 * 1) = 1100 := by decide
  have e3 : dec4 file573 (40 + (1 * 1 + 12) * (41 - 1) + 0) = 5000 := by decide
  rw [e1, e2] at hdt
  rw [e1, e3] at hdtt
  have hfr' : info.frames = (41 : Int) := by exact_mod_cast hfr
  have hdt' : info.dt = 100 := by rw [hdt]; norm_num
  have hdtt' : info.dt_total = 4000 := by rw [hdtt]; norm_num
  rw [hfr', hdtt'] at hfps
  rw [hdtt', hdt'] at hdur
  have hfps' : info.fps = 10000 := by rw [hfps]; norm_num
  have hdur' : info.duration = 41 / 10000 := by rw [hdur]; norm_num
  exact ⟨info, s, heq, hdt', hdtt', hfr', hfps', hdur'⟩

/-- Characterisation of a full `read_data` run on a well-formed stream with
an always-succeeding sink: it writes exactly the records of the non-skipped
indices, in ascending order, and surfaces no exception. -/
theorem read_data_spec (data attr : List Nat) (w h n rem : Nat) (ex : Nat → Bool)
    (ff lf : Int) (q : Nat) (fr : Option ℚ) (sf : Nat) (fo : Bool)
    (hok : read_width_and_height attr 19 37 = .ok (w, h))
    (hw : 0 < w) (hh : 0 < h) (hn : 2 ≤ n) (hrem : rem < w * h + 12)
    (hlen : data.length = 40 + (w * h + 12) * n + rem)
    (hne : dec4 data (40 + (w * h + 12) * (n - 1) + rem) ≠ dec4 data 40) :
    read_data data attr ex (fun _ => true) ff lf q fr sf fo =
      (((List.range' 0 n).filter (fun j => !ex j)).map (recordAt data w h), none) := by
  have hwh : 0 < w * h := Nat.mul_pos hw hh
  have key := read_file_info_ok data 0 w h n rem hwh hn hrem hlen hne
  have hrun := runFrames_spec data w h n rem ex hwh hrem hlen n 0 (by omega)
  simp only [Nat.mul_zero, Nat.add_zero] at hrun
  unfold read_data
  rw [hok]
  dsimp only
  rw [key]
  dsimp only
  rw [Int.toNat_natCast, hrun]

/-- Claim C9: on a well-formed stream where every sink write succeeds,
extraction with an arbitrary `already_materialized` predicate advances past
each skipped record's full stride and decodes every non-skipped index to
exactly the same `(index, timestamp, buffer)` record as a run with no
skips: the skipping run's output is the no-skip run's output filtered to
the non-skipped indices, and no error is surfaced. -/
theorem C9_confirmed (data attr : List Nat) (w h n rem : Nat) (ex : Nat → Bool)
    (ff lf : Int) (q : Nat) (fr : Option ℚ) (sf : Nat) (fo : Bool)
    (hok : read_width_and_height attr 19 37 = .ok (w, h))
    (hw : 0 < w) (hh : 0 < h) (hn : 2 ≤ n) (hrem : rem < w * h + 12)
    (hlen : data.length = 40 + (w * h + 12) * n + rem)
    (hne : dec4 data (40 + (w * h + 12) * (n - 1) + rem) ≠ dec4 data 40) :
    (read_data data attr ex (fun _ => true) ff lf q fr sf fo).1 =
      ((read_data data attr (fun _ => false) (fun _ => true) ff lf q fr sf fo).1).filter
        (fun t => !ex t.1) ∧
    (read_data data attr ex (fun _ => true) ff lf q fr sf fo).2 = none := by
  have h1 := read_data_spec data attr w h n rem ex ff lf q fr sf fo
    hok hw hh hn hrem hlen hne
  have h2 := read_data_spec data attr w h n rem (fun _ => false) ff lf q fr sf fo
    hok hw hh hn hrem hlen hne
  rw [h1, h2]
  refine ⟨?_, rfl⟩
  dsimp only
  rw [show (fun j => !(fun _ => false) j) = fun j : Nat => true from rfl, List.filter_true]
  exact map_recordAt_filter data w h ex (List.range' 0 n)

/-- Claim C9 (witness): with geometry 1×1 and ten records, marking index 3
as materialized leaves indices 0, 1, 2, 4, …, 9 decoded exactly as in the
no-skip run; the written indices are `[0, 1, 2, 4, 5, 6, 7, 8, 9]`. -/
theorem C9_witness :
    ((read_data file170 attr39 (fun j => j == 3) (fun _ => true) 0 (-1) 100 none 0 false).1 =
      ((read_data file170 attr39 (fun _ => false) (fun _ => true) 0 (-1) 100 none 0 false).1).filter
        (fun t => !(t.1 == 3)) ∧
     (read_data file170 attr39 (fun j => j == 3) (fun _ => true) 0 (-1) 100 none 0 false).2
        = none) ∧
    (read_data file170 attr39 (fun j => j == 3) (fun _ => true) 0 (-1) 100 none 0 false).1.map
      (fun t => t.1) = [0, 1, 2, 4, 5, 6, 7, 8, 9] :=
  ⟨C9_confirmed file170 attr39 1 1 10 0 (fun j => j == 3) 0 (-1) 100 none 0 false
      (by decide) (by decide) (by decide) (by decide) (by decide) (by decide) (by decide),
    by decide⟩

/-- Claim C10: the keyword parameters `first_frame`, `last_frame`,
`quality`, `framerate`, `skipframes` and `force_overwrite` of `read_data`
are never read by its body (the source accepts them and ignores them;
`framerate` is only reassigned locally), so two calls differing only in
these parameters produce identical saved frames and identical surfaced
errors. -/
theorem C10_confirmed (data_file attr_file : List Nat)
    (output_exists sink_ok : Nat → Bool)
    (ff1 lf1 : Int) (q1 : Nat) (fr1 : Option ℚ) (sf1 : Nat) (fo1 : Bool)
    (ff2 lf2 : Int) (q2 : Nat) (fr2 : Option ℚ) (sf2 : Nat) (fo2 : Bool) :
    read_data data_file attr_file output_exists sink_ok ff1 lf1 q1 fr1 sf1 fo1 =
      read_data data_file attr_file output_exists sink_ok ff2 lf2 q2 fr2 sf2 fo2 := rfl

end CAData
